import Mathlib

set_option maxHeartbeats 1000000

namespace SpannerSpec

/-!
Verification of the go-sql-spanner sample programs and of the
transactional batch-execution and type-marshalling engine they rely on.

The two source files under scrutiny are
`snippets/samples/update_data_with_transaction.go` (function
`WriteWithTransactionUsingDml`, embedded below as
`writeWithTransactionUsingDml`) and the `dataTypes` example with its
`nativeTypes` / `nullTypes` / `sqlNullTypes` target shapes.  The driver
engine itself (value codec, DML batch executor, transaction state
machine) is not part of the visible source; those parts are modelled
from the specification, as marked on each definition.
-/

/-! ## Value codec -/

/-- Scalar column types of the `AllTypes` table in the `dataTypes`
example, plus JSON which the example's comments name explicitly. -/
inductive ScalarType
  | bool
  | string
  | bytes
  | int64
  | float32
  | float64
  | numeric
  | date
  | timestamp
  | json
deriving DecidableEq, Repr

/-- Modelled from the spec: a non-null scalar payload.  Float payloads
are carried opaquely (the codec never computes with them), so they are
represented by rationals; dates by (year, month, day); timestamps by an
epoch offset; bytes by a byte list. -/
inductive ScalarVal
  | bool (b : Bool)
  | str (s : String)
  | bytes (bs : List Nat)
  | int64 (n : Int)
  | float32 (q : ℚ)
  | float64 (q : ℚ)
  | numeric (q : ℚ)
  | date (y : Int) (m : Nat) (d : Nat)
  | timestamp (t : Int)
  | json (s : String)
deriving DecidableEq, Repr

/-- The scalar type a scalar payload belongs to. -/
def ScalarVal.typeOf : ScalarVal → ScalarType
  | .bool _ => .bool
  | .str _ => .string
  | .bytes _ => .bytes
  | .int64 _ => .int64
  | .float32 _ => .float32
  | .float64 _ => .float64
  | .numeric _ => .numeric
  | .date _ _ _ => .date
  | .timestamp _ => .timestamp
  | .json _ => .json

/-- A declared column type: a scalar type or an array of a scalar type
(`ARRAY<...>` in the example's DDL). -/
inductive SpannerType
  | scalar (t : ScalarType)
  | array (t : ScalarType)
deriving DecidableEq, Repr

/-- Modelled from the spec: the canonical typed wire value.  A whole
value may be null, and independently each element of an array value may
be null ("nullability is tracked at every level of nesting, never
collapsed"). -/
inductive Value
  | null (t : SpannerType)
  | scalar (v : ScalarVal)
  | array (t : ScalarType) (elems : List (Option ScalarVal))
deriving DecidableEq, Repr

/-- Modelled from the spec: a native application value.  A null scalar,
a null array, and an array containing null elements are distinct
constructors, matching the `spanner.Null*` and `[]spanner.Null*` shapes
of the `dataTypes` example. -/
inductive NativeValue
  | scalar (v : ScalarVal)
  | nullScalar (t : ScalarType)
  | nullArray (t : ScalarType)
  | array (t : ScalarType) (elems : List (Option ScalarVal))
deriving DecidableEq, Repr

/-- Every present element of an array agrees with the element type. -/
def elemsWellTyped (t : ScalarType) (elems : List (Option ScalarVal)) : Bool :=
  elems.all fun e =>
    match e with
    | none => true
    | some v => decide (v.typeOf = t)

/-- A native value is representable at a declared type when its payloads
agree with that type. -/
def NativeValue.matchesType : NativeValue → SpannerType → Bool
  | .scalar v, .scalar t => decide (v.typeOf = t)
  | .nullScalar t, .scalar u => decide (t = u)
  | .nullArray t, .array u => decide (t = u)
  | .array t elems, .array u => decide (t = u) && elemsWellTyped t elems
  | _, _ => false

/-- Modelled from the spec: codec failures surface as `TypeMismatch`,
never a silent coercion. -/
inductive CodecError
  | typeMismatch
deriving DecidableEq, Repr

/-- Modelled from the spec: `encode(nativeValue, declaredType) -> Value`.
A typed null encodes to a null wire value of the declared type; any
shape or type disagreement is a `TypeMismatch`. -/
def encode (v : NativeValue) (t : SpannerType) : Except CodecError Value :=
  if v.matchesType t then
    match v with
    | .scalar s => .ok (.scalar s)
    | .nullScalar u => .ok (.null (.scalar u))
    | .nullArray u => .ok (.null (.array u))
    | .array u elems => .ok (.array u elems)
  else .error .typeMismatch

/-- A requested native decode target: dense scalar, nullable scalar,
dense native array (`[]bool`-style, only with `DecodeToNativeArrays`),
or nullable-element array (`[]spanner.NullBool`-style). -/
inductive Shape
  | scalar (t : ScalarType)
  | nullableScalar (t : ScalarType)
  | denseArray (t : ScalarType)
  | nullableArray (t : ScalarType)
deriving DecidableEq, Repr

/-- The canonical native shape of a declared type: the shape that keeps
nullability at every level, per the spec's data model. -/
def shapeOf : SpannerType → Shape
  | .scalar t => .nullableScalar t
  | .array t => .nullableArray t

/-- Result of a decode: either a canonical native value or a dense
native array (all elements present). -/
inductive Decoded
  | native (v : NativeValue)
  | dense (t : ScalarType) (elems : List ScalarVal)
deriving DecidableEq, Repr

/-- Element types that have no dense native counterpart: per the
`dataTypes` example, "Arrays of type JSON and NUMERIC must always use
[]spanner.NullJson and []spanner.NullNumeric". -/
def noDenseNative : ScalarType → Bool
  | .numeric => true
  | .json => true
  | _ => false

/-- Whether an array value contains a null element. -/
def hasNullElem (elems : List (Option ScalarVal)) : Bool :=
  elems.any fun e => e.isNone

/-- Modelled from the spec: `decode(Value, requestedNativeShape)`.
Nullable targets accept null values and preserve per-element nullness;
a dense array target rejects NUMERIC and JSON element types outright and
rejects any null element; every mismatch is a `TypeMismatch`. -/
def decode (w : Value) (sh : Shape) : Except CodecError Decoded :=
  match w, sh with
  | .null (.scalar t), .nullableScalar u =>
      if t = u then .ok (.native (.nullScalar t)) else .error .typeMismatch
  | .null (.array t), .nullableArray u =>
      if t = u then .ok (.native (.nullArray t)) else .error .typeMismatch
  | .scalar v, .nullableScalar u =>
      if v.typeOf = u then .ok (.native (.scalar v)) else .error .typeMismatch
  | .scalar v, .scalar u =>
      if v.typeOf = u then .ok (.native (.scalar v)) else .error .typeMismatch
  | .array t elems, .nullableArray u =>
      if t = u ∧ elemsWellTyped t elems then .ok (.native (.array t elems))
      else .error .typeMismatch
  | .array t elems, .denseArray u =>
      if t = u ∧ elemsWellTyped t elems then
        if noDenseNative t then .error .typeMismatch
        else if hasNullElem elems then .error .typeMismatch
        else .ok (.dense t elems.reduceOption)
      else .error .typeMismatch
  | _, _ => .error .typeMismatch

/-- C1: for every representable native value v and declared type t,
decoding the encoding of v at type t back into the canonical native
shape of t yields v exactly; a null scalar, a null array, and an array
containing null elements are distinct constructors of `NativeValue` and
each round-trips to itself, so nullability is preserved at every level. -/
theorem decode_encode_roundtrip (v : NativeValue) (t : SpannerType)
    (h : v.matchesType t = true) :
    (encode v t).bind (fun w => decode w (shapeOf t)) = .ok (.native v) := by
  cases v <;> cases t <;>
      simp only [NativeValue.matchesType, Bool.and_eq_true, decide_eq_true_eq] at h <;>
      try exact absurd h (by decide)
  case scalar.scalar s u =>
    simp [encode, NativeValue.matchesType, h, decode, shapeOf, Except.bind]
  case nullScalar.scalar s u =>
    subst h
    simp [encode, NativeValue.matchesType, decode, shapeOf, Except.bind]
  case nullArray.array s u =>
    subst h
    simp [encode, NativeValue.matchesType, decode, shapeOf, Except.bind]
  case array.array s elems u =>
    obtain ⟨rfl, hw⟩ := h
    simp [encode, NativeValue.matchesType, hw, decode, shapeOf, Except.bind]

/-- Witness for C1 at an array value with one null element and one
present element, of declared type ARRAY of BOOL. -/
theorem decode_encode_roundtrip_witness :
    (NativeValue.array .bool [some (.bool true), none]).matchesType
        (.array .bool) = true ∧
    (encode (.array .bool [some (.bool true), none]) (.array .bool)).bind
        (fun w => decode w (shapeOf (.array .bool))) =
      .ok (.native (.array .bool [some (.bool true), none])) :=
  ⟨by decide, decode_encode_roundtrip (.array .bool [some (.bool true), none])
    (.array .bool) (by decide)⟩

/-- C3: for every well-typed array value containing at least one null
element, a dense-native decode request fails with `TypeMismatch`, while
a nullable-element decode request succeeds and returns the same element
list, preserving each element's nullness. -/
theorem decode_null_elem_dense_vs_nullable (t : ScalarType)
    (elems : List (Option ScalarVal))
    (hw : elemsWellTyped t elems = true) (hn : hasNullElem elems = true) :
    decode (.array t elems) (.denseArray t) = .error .typeMismatch ∧
    decode (.array t elems) (.nullableArray t) = .ok (.native (.array t elems)) := by
  refine ⟨?_, by simp [decode, hw]⟩
  cases hd : noDenseNative t <;> simp [decode, hw, hn, hd]

/-- Witness for C3 at a BOOL array whose second element is null. -/
theorem decode_null_elem_dense_vs_nullable_witness :
    elemsWellTyped .bool [some (.bool true), none] = true ∧
    hasNullElem [some (.bool true), none] = true ∧
    decode (.array .bool [some (.bool true), none]) (.denseArray .bool) =
      .error .typeMismatch ∧
    decode (.array .bool [some (.bool true), none]) (.nullableArray .bool) =
      .ok (.native (.array .bool [some (.bool true), none])) := by
  refine ⟨by decide, by decide, ?_, ?_⟩
  · exact (decode_null_elem_dense_vs_nullable .bool [some (.bool true), none]
      (by decide) (by decide)).1
  · exact (decode_null_elem_dense_vs_nullable .bool [some (.bool true), none]
      (by decide) (by decide)).2

/-- C4: for every well-typed array value whose element type is NUMERIC
or JSON, a dense-native decode request is rejected with `TypeMismatch`
regardless of whether the array contains null elements, while the
nullable-element decode of the same array succeeds. -/
theorem decode_numeric_json_never_dense (t : ScalarType)
    (elems : List (Option ScalarVal))
    (ht : t = .numeric ∨ t = .json) (hw : elemsWellTyped t elems = true) :
    decode (.array t elems) (.denseArray t) = .error .typeMismatch ∧
    decode (.array t elems) (.nullableArray t) = .ok (.native (.array t elems)) := by
  rcases ht with ht | ht <;> subst ht <;>
    exact ⟨by simp [decode, hw, noDenseNative], by simp [decode, hw]⟩

/-- Witness for C4 at a NUMERIC array with no null element at all. -/
theorem decode_numeric_json_never_dense_witness :
    elemsWellTyped .numeric [some (.numeric 1), some (.numeric 2)] = true ∧
    hasNullElem [some (.numeric 1), some (.numeric 2)] = false ∧
    decode (.array .numeric [some (.numeric 1), some (.numeric 2)])
        (.denseArray .numeric) = .error .typeMismatch ∧
    decode (.array .numeric [some (.numeric 1), some (.numeric 2)])
        (.nullableArray .numeric) =
      .ok (.native (.array .numeric [some (.numeric 1), some (.numeric 2)])) := by
  refine ⟨by decide, by decide, ?_, ?_⟩
  · exact (decode_numeric_json_never_dense .numeric
      [some (.numeric 1), some (.numeric 2)] (Or.inl rfl) (by decide)).1
  · exact (decode_numeric_json_never_dense .numeric
      [some (.numeric 1), some (.numeric 2)] (Or.inl rfl) (by decide)).2

/-! ## Statement batch execution -/

/-- Modelled from the spec: run the statements of a batch in submission
order against a database state, collecting one row-affected count per
statement.  On the first failing statement the whole run stops and the
error carries that statement's index. -/
def execBatch {σ Stmt ε : Type} (step : Stmt → σ → Except ε (σ × Nat)) :
    List Stmt → σ → Except (Nat × ε) (σ × List Nat)
  | [], s => .ok (s, [])
  | stmt :: rest, s =>
    match step stmt s with
    | .error e => .error (0, e)
    | .ok (s1, n) =>
      match execBatch step rest s1 with
      | .error ke => .error (ke.1 + 1, ke.2)
      | .ok (s2, ns) => .ok (s2, n :: ns)

/-- Modelled from the spec: submitting a batch is atomic.  A fully
successful batch publishes the new state and the per-statement counts;
a failing batch discards every effect, leaving the state as it was, and
returns only the aggregate error. -/
def submitBatch {σ Stmt ε : Type} (step : Stmt → σ → Except ε (σ × Nat))
    (stmts : List Stmt) (s : σ) : Except (Nat × ε) (List Nat) × σ :=
  match execBatch step stmts s with
  | .ok (s1, ns) => (.ok ns, s1)
  | .error ke => (.error ke, s)

/-- The state reached after successfully running every statement of a
prefix of the batch, or `none` if some statement of the prefix fails. -/
def prefixState {σ Stmt ε : Type} (step : Stmt → σ → Except ε (σ × Nat)) :
    List Stmt → σ → Option σ
  | [], s => some s
  | stmt :: rest, s =>
    match step stmt s with
    | .error _ => none
    | .ok (s1, _) => prefixState step rest s1

theorem execBatch_ok_spec {σ Stmt ε : Type}
    (step : Stmt → σ → Except ε (σ × Nat)) (stmts : List Stmt) (s : σ)
    (s1 : σ) (ns : List Nat) (h : execBatch step stmts s = .ok (s1, ns)) :
    ns.length = stmts.length ∧
    ∀ i stmt, stmts.get? i = some stmt →
      ∃ si si' n, prefixState step (stmts.take i) s = some si ∧
        step stmt si = .ok (si', n) ∧ ns.get? i = some n := by
  induction stmts generalizing s ns with
  | nil =>
    simp [execBatch] at h
    simp [h.2]
  | cons a rest ih =>
    cases ha : step a s with
    | error e => simp [execBatch, ha] at h
    | ok p =>
      obtain ⟨sa, n⟩ := p
      cases hr : execBatch step rest sa with
      | error ke => simp [execBatch, ha, hr] at h
      | ok q =>
        obtain ⟨s2, ms⟩ := q
        simp only [execBatch, ha, hr, Except.ok.injEq, Prod.mk.injEq] at h
        obtain ⟨hs2, hns⟩ := h
        subst hs2
        obtain ⟨hlen, hidx⟩ := ih sa ms hr
        subst hns
        refine ⟨by simp [hlen], ?_⟩
        intro i stmt hi
        cases i with
        | zero =>
          simp only [List.get?] at hi
          cases hi
          exact ⟨s, sa, n, by simp [prefixState], ha, rfl⟩
        | succ j =>
          simp only [List.get?] at hi
          obtain ⟨si, si', m, h1, h2, h3⟩ := hidx j stmt hi
          exact ⟨si, si', m, by simp [prefixState, ha, h1], h2, h3⟩

theorem execBatch_error_spec {σ Stmt ε : Type}
    (step : Stmt → σ → Except ε (σ × Nat)) (stmts : List Stmt) (s : σ)
    (k : Nat) (e : ε) (h : execBatch step stmts s = .error (k, e)) :
    ∃ sk stmt, prefixState step (stmts.take k) s = some sk ∧
      stmts.get? k = some stmt ∧ step stmt sk = .error e := by
  induction stmts generalizing s k with
  | nil => exact absurd h (by simp [execBatch])
  | cons a rest ih =>
    cases ha : step a s with
    | error e' =>
      simp only [execBatch, ha, Except.error.injEq, Prod.mk.injEq] at h
      obtain ⟨rfl, rfl⟩ := h
      exact ⟨s, a, by simp [prefixState], rfl, ha⟩
    | ok p =>
      obtain ⟨sa, n⟩ := p
      cases hr : execBatch step rest sa with
      | error ke =>
        obtain ⟨j, e'⟩ := ke
        simp only [execBatch, ha, hr, Except.error.injEq, Prod.mk.injEq] at h
        obtain ⟨rfl, rfl⟩ := h
        obtain ⟨sk, stmt, h1, h2, h3⟩ := ih sa j hr
        exact ⟨sk, stmt, by simp [prefixState, ha, h1], h2, h3⟩
      | ok q => simp [execBatch, ha, hr] at h

/-- C2: a fully successful batch of N statements yields exactly N
row-affected counts, and the i-th count is the count produced by
statement i run on the state left by statements 0..i-1 (submission
order).  A failing batch reports the index k of the first failing
statement (every statement before k succeeded and statement k failed),
publishes no counts, and leaves the observable state unchanged. -/
theorem submitBatch_spec {σ Stmt ε : Type}
    (step : Stmt → σ → Except ε (σ × Nat)) (stmts : List Stmt) (s : σ) :
    (∀ s1 ns, execBatch step stmts s = .ok (s1, ns) →
      ns.length = stmts.length ∧
      ∀ i stmt, stmts.get? i = some stmt →
        ∃ si si' n, prefixState step (stmts.take i) s = some si ∧
          step stmt si = .ok (si', n) ∧ ns.get? i = some n) ∧
    (∀ k e, execBatch step stmts s = .error (k, e) →
      (∃ sk stmt, prefixState step (stmts.take k) s = some sk ∧
        stmts.get? k = some stmt ∧ step stmt sk = .error e) ∧
      (submitBatch step stmts s).1 = .error (k, e) ∧
      (submitBatch step stmts s).2 = s) := by
  constructor
  · intro s1 ns h
    exact execBatch_ok_spec step stmts s s1 ns h
  · intro k e h
    exact ⟨execBatch_error_spec step stmts s k e h,
      by simp [submitBatch, h], by simp [submitBatch, h]⟩

/-- A concrete batch step used to witness `submitBatch_spec`: the
statement 0 fails, any other statement n succeeds, affecting n rows. -/
def wStep (n : Nat) (s : Nat) : Except Unit (Nat × Nat) :=
  if n = 0 then .error () else .ok (s + n, n)

/-- Witness for C2: the batch [3, 0, 4] fails at index 1, and the
observable state after the failed submission is the original state. -/
theorem submitBatch_spec_witness :
    (submitBatch wStep [3, 0, 4] 10).2 = 10 ∧
    (submitBatch wStep [3, 0, 4] 10).1 = .error (1, ()) :=
  ⟨((submitBatch_spec wStep [3, 0, 4] 10).2 1 () (by rfl)).2.2,
   ((submitBatch_spec wStep [3, 0, 4] 10).2 1 () (by rfl)).2.1⟩

/-! ## The transfer sample (`WriteWithTransactionUsingDml`)

Embedding of `snippets/samples/update_data_with_transaction.go`.  The
driver and database it talks to are collaborators behind an interface
(`SpannerConn`); the control flow below is a line-by-line translation
of the Go function. -/

/-- An error produced by the driver or database collaborator. -/
inductive DbErr
  | rpc (msg : String)
deriving DecidableEq, Repr

/-- An error returned by `WriteWithTransactionUsingDml`: either a
collaborator error passed through unchanged, or the function's own
`fmt.Errorf("unexpected number of rows affected: %v", affected)`. -/
inductive FnErr
  | db (e : DbErr)
  | unexpectedAffected (n : Int)
deriving DecidableEq, Repr

/-- One observable call made by the function. -/
inductive Action
  | openDb
  | beginTx
  | query (singerId albumId : Int)
  | startBatch
  | execUpdate (singerId albumId budget : Int)
  | runBatch
  | rowsAffected
  | abortBatch
  | rollback
  | commit
deriving DecidableEq, Repr

/-- The lifecycle phase the `sql.Tx` ends in. -/
inductive TxPhase
  | noTx
  | active
  | committed
  | rolledBack
  | commitFailed
deriving DecidableEq, Repr

/-- The collaborator interface used by the sample, over an opaque
database/driver state σ.  A call that fails leaves the state as it was
(the error variant carries no state).  `rollback` and `abortBatch`
have their results discarded by the Go code, so they are modelled as
total. -/
structure SpannerConn (σ : Type) where
  openDb : Except DbErr Unit
  beginTx : σ → Except DbErr σ
  queryBudget : σ → Int → Int → Except DbErr (σ × Int)
  startBatch : σ → Except DbErr σ
  bufferUpdate : σ → Int → Int → Int → Except DbErr σ
  runBatch : σ → Except DbErr σ
  rowsAffected : σ → Except DbErr Int
  abortBatch : σ → σ
  rollback : σ → σ
  commit : σ → Except DbErr σ

/-- The observable outcome of one execution of the sample: the returned
error or nil, the final collaborator state, the transaction's final
phase, the calls made, and the lines written to the output writer. -/
structure RunResult (σ : Type) where
  result : Except FnErr Unit
  finalState : σ
  tx : TxPhase
  trace : List Action
  output : List String

/-- The tail of the sample: `tx.Commit()`, then on success
`fmt.Fprintln(w, "Transferred marketing budget from Album 2 to Album 1")`
and return nil; on failure return the commit error (no rollback). -/
def commitFinish {σ : Type} (c : SpannerConn σ) (s : σ) (tr : List Action) :
    RunResult σ :=
  match c.commit s with
  | .error e => ⟨.error (.db e), s, .commitFailed, tr ++ [.commit], []⟩
  | .ok s1 =>
      ⟨.ok (), s1, .committed, tr ++ [.commit],
        ["Transferred marketing budget from Album 2 to Album 1"]⟩

/-- Line-by-line embedding of `WriteWithTransactionUsingDml`: open the
database, begin a transaction, read the budget of (2,2); if it is at
least the transfer amount 20000, read the budget of (1,1), run a DML
batch of the two updates, check that exactly 2 rows were affected, and
commit; otherwise commit immediately.  Every error before commit first
rolls the transaction back (after `abort batch` where the Go code does
so) and is then returned unchanged. -/
def writeWithTransactionUsingDml {σ : Type} (c : SpannerConn σ) (s0 : σ) :
    RunResult σ :=
  match c.openDb with
  | .error e => ⟨.error (.db e), s0, .noTx, [.openDb], []⟩
  | .ok _ =>
    match c.beginTx s0 with
    | .error e => ⟨.error (.db e), s0, .noTx, [.openDb, .beginTx], []⟩
    | .ok s1 =>
      match c.queryBudget s1 2 2 with
      | .error e =>
          ⟨.error (.db e), c.rollback s1, .rolledBack,
            [.openDb, .beginTx, .query 2 2, .rollback], []⟩
      | .ok (s2, budget2) =>
        if budget2 ≥ 20000 then
          match c.queryBudget s2 1 1 with
          | .error e =>
              ⟨.error (.db e), c.rollback s2, .rolledBack,
                [.openDb, .beginTx, .query 2 2, .query 1 1, .rollback], []⟩
          | .ok (s3, budget1) =>
            match c.startBatch s3 with
            | .error e =>
                ⟨.error (.db e), c.rollback s3, .rolledBack,
                  [.openDb, .beginTx, .query 2 2, .query 1 1, .startBatch,
                    .rollback], []⟩
            | .ok s4 =>
              match c.bufferUpdate s4 1 1 (budget1 + 20000) with
              | .error e =>
                  ⟨.error (.db e), c.rollback (c.abortBatch s4), .rolledBack,
                    [.openDb, .beginTx, .query 2 2, .query 1 1, .startBatch,
                      .execUpdate 1 1 (budget1 + 20000), .abortBatch,
                      .rollback], []⟩
              | .ok s5 =>
                match c.bufferUpdate s5 2 2 (budget2 - 20000) with
                | .error e =>
                    ⟨.error (.db e), c.rollback (c.abortBatch s5), .rolledBack,
                      [.openDb, .beginTx, .query 2 2, .query 1 1, .startBatch,
                        .execUpdate 1 1 (budget1 + 20000),
                        .execUpdate 2 2 (budget2 - 20000), .abortBatch,
                        .rollback], []⟩
                | .ok s6 =>
                  match c.runBatch s6 with
                  | .error e =>
                      ⟨.error (.db e), c.rollback s6, .rolledBack,
                        [.openDb, .beginTx, .query 2 2, .query 1 1, .startBatch,
                          .execUpdate 1 1 (budget1 + 20000),
                          .execUpdate 2 2 (budget2 - 20000), .runBatch,
                          .rollback], []⟩
                  | .ok s7 =>
                    match c.rowsAffected s7 with
                    | .error e =>
                        ⟨.error (.db e), c.rollback s7, .rolledBack,
                          [.openDb, .beginTx, .query 2 2, .query 1 1,
                            .startBatch, .execUpdate 1 1 (budget1 + 20000),
                            .execUpdate 2 2 (budget2 - 20000), .runBatch,
                            .rowsAffected, .rollback], []⟩
                    | .ok affected =>
                      if affected = 2 then
                        commitFinish c s7
                          [.openDb, .beginTx, .query 2 2, .query 1 1,
                            .startBatch, .execUpdate 1 1 (budget1 + 20000),
                            .execUpdate 2 2 (budget2 - 20000), .runBatch,
                            .rowsAffected]
                      else
                        ⟨.error (.unexpectedAffected affected), c.rollback s7,
                          .rolledBack,
                          [.openDb, .beginTx, .query 2 2, .query 1 1,
                            .startBatch, .execUpdate 1 1 (budget1 + 20000),
                            .execUpdate 2 2 (budget2 - 20000), .runBatch,
                            .rowsAffected, .rollback], []⟩
        else commitFinish c s2 [.openDb, .beginTx, .query 2 2]

/-- C6: whenever the sample returns an error, the transaction does not
remain in the active phase; and whenever the error was raised before
any commit attempt (the read, batch-building, and batch-submission
steps), either no transaction ever existed (open or begin failed) or an
explicit rollback was issued before the error was returned. -/
theorem run_error_forces_abort {σ : Type} (c : SpannerConn σ) (s0 : σ)
    (e : FnErr) (h : (writeWithTransactionUsingDml c s0).result = .error e) :
    (writeWithTransactionUsingDml c s0).tx ≠ .active ∧
    (Action.commit ∉ (writeWithTransactionUsingDml c s0).trace →
      (writeWithTransactionUsingDml c s0).tx = .noTx ∨
      ((writeWithTransactionUsingDml c s0).tx = .rolledBack ∧
        Action.rollback ∈ (writeWithTransactionUsingDml c s0).trace)) := by
  revert h
  unfold writeWithTransactionUsingDml commitFinish
  repeat' split
  all_goals simp

/-- A connection whose budget query always fails, used to witness C6. -/
def failingConn : SpannerConn Unit where
  openDb := .ok ()
  beginTx := fun s => .ok s
  queryBudget := fun _ _ _ => .error (.rpc "deadline exceeded")
  startBatch := fun s => .ok s
  bufferUpdate := fun s _ _ _ => .ok s
  runBatch := fun s => .ok s
  rowsAffected := fun _ => .ok 2
  abortBatch := fun s => s
  rollback := fun s => s
  commit := fun s => .ok s

/-- Witness for C6: with a connection whose first read fails, the
returned error is accompanied by a rollback. -/
theorem run_error_forces_abort_witness :
    (writeWithTransactionUsingDml failingConn ()).tx ≠ .active ∧
    (Action.commit ∉ (writeWithTransactionUsingDml failingConn ()).trace →
      (writeWithTransactionUsingDml failingConn ()).tx = .noTx ∨
      ((writeWithTransactionUsingDml failingConn ()).tx = .rolledBack ∧
        Action.rollback ∈ (writeWithTransactionUsingDml failingConn ()).trace)) :=
  run_error_forces_abort failingConn () (.db (.rpc "deadline exceeded")) (by rfl)

/-- C8: if the reads succeed, the precondition holds, the batch is
submitted successfully and reports a total row-affected count different
from 2, then the sample returns its own `unexpectedAffected` error — an
error distinct by construction from any passed-through RPC error — the
transaction is rolled back, and commit is never called. -/
theorem run_affected_mismatch {σ : Type} (c : SpannerConn σ)
    (s0 s1 s2 s3 s4 s5 s6 s7 : σ) (b1 b2 n : Int)
    (hOpen : c.openDb = .ok ())
    (hBegin : c.beginTx s0 = .ok s1)
    (hQ2 : c.queryBudget s1 2 2 = .ok (s2, b2))
    (hge : b2 ≥ 20000)
    (hQ1 : c.queryBudget s2 1 1 = .ok (s3, b1))
    (hSB : c.startBatch s3 = .ok s4)
    (hU1 : c.bufferUpdate s4 1 1 (b1 + 20000) = .ok s5)
    (hU2 : c.bufferUpdate s5 2 2 (b2 - 20000) = .ok s6)
    (hRB : c.runBatch s6 = .ok s7)
    (hRA : c.rowsAffected s7 = .ok n)
    (hn : n ≠ 2) :
    (writeWithTransactionUsingDml c s0).result =
        .error (.unexpectedAffected n) ∧
    (writeWithTransactionUsingDml c s0).tx = .rolledBack ∧
    Action.rollback ∈ (writeWithTransactionUsingDml c s0).trace ∧
    Action.commit ∉ (writeWithTransactionUsingDml c s0).trace := by
  unfold writeWithTransactionUsingDml
  simp [hOpen, hBegin, hQ2, hge, hQ1, hSB, hU1, hU2, hRB, hRA, hn]

/-- A connection that reports 3 affected rows for the batch, used to
witness C8. -/
def overCountConn : SpannerConn Unit where
  openDb := .ok ()
  beginTx := fun s => .ok s
  queryBudget := fun s _ _ => .ok (s, 25000)
  startBatch := fun s => .ok s
  bufferUpdate := fun s _ _ _ => .ok s
  runBatch := fun s => .ok s
  rowsAffected := fun _ => .ok 3
  abortBatch := fun s => s
  rollback := fun s => s
  commit := fun s => .ok s

/-- Witness for C8: a batch reporting 3 affected rows makes the sample
roll back and return `unexpectedAffected 3` without committing. -/
theorem run_affected_mismatch_witness :
    (writeWithTransactionUsingDml overCountConn ()).result =
        .error (.unexpectedAffected 3) ∧
    (writeWithTransactionUsingDml overCountConn ()).tx = .rolledBack ∧
    Action.rollback ∈ (writeWithTransactionUsingDml overCountConn ()).trace ∧
    Action.commit ∉ (writeWithTransactionUsingDml overCountConn ()).trace :=
  run_affected_mismatch overCountConn () () () () () () () () 25000 25000 3
    rfl rfl rfl (by decide) rfl rfl rfl rfl rfl rfl (by decide)

/-- C10: every execution of the sample that returns nil writes exactly
the line "Transferred marketing budget from Album 2 to Album 1" to the
output writer — the message is printed after any successful commit,
whether or not an update batch ran. -/
theorem run_success_output {σ : Type} (c : SpannerConn σ) (s0 : σ)
    (h : (writeWithTransactionUsingDml c s0).result = .ok ()) :
    (writeWithTransactionUsingDml c s0).output =
      ["Transferred marketing budget from Album 2 to Album 1"] := by
  revert h
  unfold writeWithTransactionUsingDml commitFinish
  repeat' split
  all_goals simp

/-! ## A concrete executor for the transfer scenarios

Modelled from the spec: a single-caller database holding the
`Albums.MarketingBudget` column keyed by (SingerId, AlbumId), with a
transaction view, a DML batch buffer, and commit/rollback.  This stands
in for the driver and emulator the sample runs against. -/

/-- The Albums table: (SingerId, AlbumId) to MarketingBudget. -/
abbrev AlbumsDb := List ((Int × Int) × Int)

/-- Budget stored for a key, if the row exists. -/
def dbLookup (db : AlbumsDb) (k : Int × Int) : Option Int :=
  match db with
  | [] => none
  | (k1, v) :: rest => if k1 = k then some v else dbLookup rest k

/-- Set the budget of a key, leaving absent rows absent. -/
def dbUpdate (db : AlbumsDb) (k : Int × Int) (v : Int) : AlbumsDb :=
  match db with
  | [] => []
  | (k1, v1) :: rest =>
    if k1 = k then (k1, v) :: rest else (k1, v1) :: dbUpdate rest k v

/-- Rows matched by an UPDATE on one key: 1 if the row exists, else 0. -/
def affectedCount (db : AlbumsDb) (k : Int × Int) : Nat :=
  match dbLookup db k with
  | some _ => 1
  | none => 0

/-- Apply buffered updates in submission order, collecting one
row-affected count per statement. -/
def applyBatchUpdates : AlbumsDb → List ((Int × Int) × Int) → AlbumsDb × List Nat
  | v, [] => (v, [])
  | v, (k, b) :: rest =>
    let n := affectedCount v k
    let p := applyBatchUpdates (dbUpdate v k b) rest
    (p.1, n :: p.2)

/-- Modelled from the spec: the driver/database state seen by one
caller — the committed table, the transaction's working view when a
transaction is active, the buffered DML batch when one is open, and the
per-statement counts of the last batch that ran. -/
structure EmuState where
  committed : AlbumsDb
  txView : Option AlbumsDb
  batch : Option (List ((Int × Int) × Int))
  lastCounts : List Nat
deriving DecidableEq, Repr

/-- Modelled from the spec: the connection the sample talks to.  Reads
see the transaction's view; `start batch dml` opens a buffer; update
statements are buffered; `run batch` applies them in order to the view;
commit publishes the view; rollback discards it. -/
def emuConn : SpannerConn EmuState where
  openDb := .ok ()
  beginTx := fun s =>
    .ok { s with txView := some s.committed, batch := none, lastCounts := [] }
  queryBudget := fun s sid aid =>
    match s.txView with
    | none => .error (.rpc "no transaction")
    | some v =>
      match dbLookup v (sid, aid) with
      | some b => .ok (s, b)
      | none => .error (.rpc "no rows in result set")
  startBatch := fun s =>
    match s.batch with
    | some _ => .error (.rpc "batch already active")
    | none => .ok { s with batch := some [] }
  bufferUpdate := fun s sid aid b =>
    match s.batch with
    | none => .error (.rpc "no active batch")
    | some l => .ok { s with batch := some (l ++ [((sid, aid), b)]) }
  runBatch := fun s =>
    match s.txView, s.batch with
    | some v, some l =>
      let p := applyBatchUpdates v l
      .ok { s with txView := some p.1, batch := none, lastCounts := p.2 }
    | _, _ => .error (.rpc "no active batch")
  rowsAffected := fun s => .ok (Int.ofNat s.lastCounts.sum)
  abortBatch := fun s => { s with batch := none }
  rollback := fun s => { s with txView := none, batch := none }
  commit := fun s =>
    match s.txView with
    | some v =>
      .ok { committed := v, txView := none, batch := none,
            lastCounts := s.lastCounts }
    | none => .error (.rpc "no transaction")

/-- The initial table of the transfer scenario: budget 0 for Album
(1,1) and 25000 for Album (2,2). -/
def scenarioStart : EmuState :=
  { committed := [((1, 1), 0), ((2, 2), 25000)]
    txView := none, batch := none, lastCounts := [] }

/-- C5: on the scenario table where the transaction reads budget 25000
for key (2,2) and budget 0 for key (1,1), the precondition 25000 >=
20000 holds, the batch updating (1,1) to 20000 and (2,2) to 5000 runs
and reports one affected row per statement ([1,1]), commit succeeds,
and the committed table ends with budget(1,1)=20000, budget(2,2)=5000. -/
theorem transfer_scenario_correct :
    dbLookup scenarioStart.committed (2, 2) = some 25000 ∧
    dbLookup scenarioStart.committed (1, 1) = some 0 ∧
    (writeWithTransactionUsingDml emuConn scenarioStart).result = .ok () ∧
    (writeWithTransactionUsingDml emuConn scenarioStart).tx = .committed ∧
    (writeWithTransactionUsingDml emuConn
        scenarioStart).finalState.lastCounts = [1, 1] ∧
    dbLookup (writeWithTransactionUsingDml emuConn
        scenarioStart).finalState.committed (1, 1) = some 20000 ∧
    dbLookup (writeWithTransactionUsingDml emuConn
        scenarioStart).finalState.committed (2, 2) = some 5000 :=
  ⟨rfl, rfl, rfl, rfl, rfl, rfl, rfl⟩

/-- The initial table of the failed-precondition scenario: budget 0 for
Album (1,1) and only 10000 for Album (2,2). -/
def lowStart : EmuState :=
  { committed := [((1, 1), 0), ((2, 2), 10000)]
    txView := none, batch := none, lastCounts := [] }

/-- C7: for every starting table and every read budget of key (2,2)
below the transfer amount 20000, no batch is built — the whole trace is
open, begin, the one read, and commit, so no `start batch dml` and no
update statement is ever issued — commit still succeeds as a no-op,
and the committed table is left unchanged. -/
theorem no_transfer_noop_universal (s0 : EmuState) (b2 : Int)
    (hq : dbLookup s0.committed (2, 2) = some b2) (hb : b2 < 20000) :
    (writeWithTransactionUsingDml emuConn s0).result = .ok () ∧
    (writeWithTransactionUsingDml emuConn s0).tx = .committed ∧
    (writeWithTransactionUsingDml emuConn s0).trace =
      [.openDb, .beginTx, .query 2 2, .commit] ∧
    Action.startBatch ∉ (writeWithTransactionUsingDml emuConn s0).trace ∧
    (writeWithTransactionUsingDml emuConn s0).finalState.committed =
      s0.committed ∧
    (writeWithTransactionUsingDml emuConn s0).finalState.lastCounts = [] := by
  have hneg : ¬ (20000 : Int) ≤ b2 := not_le.mpr hb
  unfold writeWithTransactionUsingDml commitFinish
  simp [emuConn, hq, hneg]

/-- Witness for C7 at the failed-precondition scenario table, where the
read budget is 10000. -/
theorem no_transfer_noop_universal_witness :
    (writeWithTransactionUsingDml emuConn lowStart).result = .ok () ∧
    (writeWithTransactionUsingDml emuConn lowStart).tx = .committed ∧
    (writeWithTransactionUsingDml emuConn lowStart).trace =
      [.openDb, .beginTx, .query 2 2, .commit] ∧
    Action.startBatch ∉ (writeWithTransactionUsingDml emuConn lowStart).trace ∧
    (writeWithTransactionUsingDml emuConn lowStart).finalState.committed =
      lowStart.committed ∧
    (writeWithTransactionUsingDml emuConn lowStart).finalState.lastCounts = [] :=
  no_transfer_noop_universal lowStart 10000 (by rfl) (by decide)

/-- Witness for C10, at an execution in which the precondition failed
and no row was updated: the run returns nil and still prints the
success message. -/
theorem run_success_output_witness :
    (writeWithTransactionUsingDml emuConn lowStart).output =
      ["Transferred marketing budget from Album 2 to Album 1"] :=
  run_success_output emuConn lowStart (by rfl)

/-! ## The transaction lifecycle state machine -/

/-- Modelled from the spec: the three transaction states of §4.3. -/
inductive TxSt
  | active
  | committed
  | aborted
deriving DecidableEq, Repr

/-- Operations a caller can attempt on a transaction. -/
inductive TxOp
  | read
  | batchSubmit
  | commit
  | abort
deriving DecidableEq, Repr

/-- Errors an attempted transaction operation can report. -/
inductive TxOpError
  | alreadyTerminal
  | opFailed
  | conflictAborted
deriving DecidableEq, Repr

/-- Committed and Aborted are the terminal states. -/
def TxSt.isTerminal : TxSt → Bool
  | .active => false
  | .committed => true
  | .aborted => true

/-- Modelled from the spec: the §4.3 state machine.  `ok` says whether
the underlying executor call succeeds.  Reads and batch submissions
self-loop on Active but force Aborted when they fail; commit moves to
Committed on success and to Aborted on a conflict; abort moves to
Aborted; any operation attempted on a terminal state fails immediately
with an already-terminal error and changes nothing. -/
def txStep (st : TxSt) (op : TxOp) (ok : Bool) : TxSt × Option TxOpError :=
  match st, op with
  | .active, .read => if ok then (.active, none) else (.aborted, some .opFailed)
  | .active, .batchSubmit =>
      if ok then (.active, none) else (.aborted, some .opFailed)
  | .active, .commit =>
      if ok then (.committed, none) else (.aborted, some .conflictAborted)
  | .active, .abort => (.aborted, none)
  | .committed, _ => (.committed, some .alreadyTerminal)
  | .aborted, _ => (.aborted, some .alreadyTerminal)

/-- Number of transitions from a non-terminal into a terminal state
along the run of a list of attempted operations. -/
def terminalTransitionCount (st : TxSt) : List (TxOp × Bool) → Nat
  | [] => 0
  | (op, ok) :: rest =>
    (if st.isTerminal = false ∧ (txStep st op ok).1.isTerminal = true
      then 1 else 0) +
    terminalTransitionCount (txStep st op ok).1 rest

theorem txStep_terminal_absorbs (st : TxSt) (op : TxOp) (ok : Bool)
    (h : st.isTerminal = true) :
    txStep st op ok = (st, some .alreadyTerminal) := by
  cases st <;> simp_all [TxSt.isTerminal, txStep]

theorem terminalTransitionCount_of_terminal (st : TxSt)
    (ops : List (TxOp × Bool)) (h : st.isTerminal = true) :
    terminalTransitionCount st ops = 0 := by
  induction ops generalizing st with
  | nil => rfl
  | cons p rest ih =>
    obtain ⟨op, ok⟩ := p
    simp [terminalTransitionCount, txStep_terminal_absorbs st op ok h, h,
      ih st h]

theorem terminalTransitionCount_le_one (st : TxSt)
    (ops : List (TxOp × Bool)) : terminalTransitionCount st ops ≤ 1 := by
  induction ops generalizing st with
  | nil => exact Nat.zero_le 1
  | cons p rest ih =>
    obtain ⟨op, ok⟩ := p
    rw [terminalTransitionCount]
    cases hterm : (txStep st op ok).1.isTerminal with
    | false =>
      simpa using ih (txStep st op ok).1
    | true =>
      rw [terminalTransitionCount_of_terminal (txStep st op ok).1 rest hterm]
      cases hst : st.isTerminal <;> simp

/-- C9: a transaction makes at most one terminal transition over any
sequence of attempted operations started from Active, and every
operation attempted on a terminal state (Committed or Aborted) fails
immediately with the already-terminal error while leaving the state
unchanged — there is no transition out of Committed or Aborted. -/
theorem txMachine_terminal_spec :
    (∀ st op ok, st.isTerminal = true →
      txStep st op ok = (st, some .alreadyTerminal)) ∧
    (∀ ops, terminalTransitionCount .active ops ≤ 1) :=
  ⟨txStep_terminal_absorbs, fun ops => terminalTransitionCount_le_one .active ops⟩

/-- Witness for C9: a read attempted on a committed transaction fails
with the already-terminal error, and the run read-commit-read from
Active makes exactly one terminal transition. -/
theorem txMachine_terminal_spec_witness :
    txStep .committed .read true = (.committed, some .alreadyTerminal) ∧
    terminalTransitionCount .active
      [(.read, true), (.commit, true), (.read, true)] ≤ 1 :=
  ⟨txMachine_terminal_spec.1 .committed .read true (by decide),
   txMachine_terminal_spec.2 [(.read, true), (.commit, true), (.read, true)]⟩

end SpannerSpec
